import Mathlib

set_option maxRecDepth 4000

/-!
Verification of the WAVE loader in src/include/wave_loader.hpp.

The embedding models the byte source underlying std::ifstream (remaining
bytes plus a fail bit), the endian-aware integer decoder convert_to_int,
and the whole parse routine LoadeWaveFile.  Machine integers are modelled
as Nat/Int with explicit reductions modulo 2^32 (int) and 2^16 (short).
The runtime result of is_big_endian() cannot be computed inside the
embedding, so it is passed to convert_to_int and LoadeWaveFile as an
explicit Bool parameter; both of the decoder's branches are translated.
-/

/-- Model of the byte source behind std::ifstream: the bytes not yet
consumed, and the stream's fail bit.  After a short read the fail bit is
set and every later read is a no-op, exactly as for std::istream. -/
structure ByteStream where
  rest : List Nat
  fail : Bool

/-- Delivers up to n bytes from the front of a byte list.  Returns the
bytes delivered, the remaining bytes, and whether the list was exhausted
before n bytes could be delivered (which sets the fail bit above). -/
def readBytes : Nat → List Nat → List Nat × List Nat × Bool
  | 0, rest => ([], rest, false)
  | _ + 1, [] => ([], [], true)
  | n + 1, b :: rest =>
    let r := readBytes n rest
    (b :: r.1, r.2.1, r.2.2)

/-- Model of file.read(buffer, n) into the 4-char scratch buffer: the
bytes actually delivered overwrite the front of the buffer and the tail
keeps its previous (stale) content; on a short read the fail bit is set;
when the fail bit is already set the call does nothing. -/
def sread (s : ByteStream) (buf : List Nat) (n : Nat) : List Nat × ByteStream :=
  match s.fail with
  | true => (buf, s)
  | false =>
    let r := readBytes n s.rest
    (r.1 ++ buf.drop r.1.length, ⟨r.2.1, r.2.2⟩)

/-- Model of file.read(p, n) into a freshly allocated buffer of length n
(new char[n]).  The returned list holds the bytes the read initialised;
the rest of the C allocation stays indeterminate and no claim depends on
it.  When the fail bit is already set the call does nothing. -/
def sreadNew (s : ByteStream) (n : Nat) : List Nat × ByteStream :=
  match s.fail with
  | true => ([], s)
  | false =>
    let r := readBytes n s.rest
    (r.1, ⟨r.2.1, r.2.2⟩)

/-- Reinterpretation of a nonnegative accumulator as a 32-bit signed int,
as when the 4-byte int a of convert_to_int is returned. -/
def toInt32 (n : Nat) : Int :=
  if n % 4294967296 < 2147483648 then ((n % 4294967296 : Nat) : Int)
  else ((n % 4294967296 : Nat) : Int) - 4294967296

/-- Truncation of an int to a short field of WaveFile (two's complement,
as on every mainstream target of this header). -/
def toInt16 (i : Int) : Int :=
  if i % 65536 < 32768 then i % 65536 else i % 65536 - 65536

/-- The little-endian-host branch of convert_to_int: for i < len the
loop stores buffer[i] into byte cell i of the int a (initially 0); on a
little-endian host cell 0 is least significant, so the value of a is
cell3*2^24 + cell2*2^16 + cell1*2^8 + cell0. -/
def leBranch (buffer : List Nat) (len : Nat) : Int :=
  let cells := (List.range len).foldl (fun cs i => cs.set i (buffer.getD i 0)) [0, 0, 0, 0]
  toInt32 (cells.getD 3 0 * 16777216 + cells.getD 2 0 * 65536 + cells.getD 1 0 * 256 + cells.getD 0 0)

/-- The big-endian-host branch of convert_to_int: for i < len the loop
stores buffer[i] into byte cell 3 - i of the int a (initially 0); on a
big-endian host cell 0 is most significant, so the value of a is
cell0*2^24 + cell1*2^16 + cell2*2^8 + cell3. -/
def beBranch (buffer : List Nat) (len : Nat) : Int :=
  let cells := (List.range len).foldl (fun cs i => cs.set (3 - i) (buffer.getD i 0)) [0, 0, 0, 0]
  toInt32 (cells.getD 0 0 * 16777216 + cells.getD 1 0 * 65536 + cells.getD 2 0 * 256 + cells.getD 3 0)

/-- convert_to_int from the source: branches on is_big_endian(), whose
runtime result is the parameter big. -/
def convert_to_int (big : Bool) (buffer : List Nat) (len : Nat) : Int :=
  cond big (beBranch buffer len) (leBranch buffer len)

/-- The WaveFile struct.  new WaveFile() value-initialises every field
to zero; data holds the bytes the final read initialised. -/
structure WaveFile where
  chunk_id : Int
  chunk_size : Int
  format : Int
  subchunk_1_id : Int
  subchunk_1_size : Int
  audio_format : Int
  num_channels : Int
  sample_rate : Int
  byte_rate : Int
  block_align : Int
  bits_per_sample : Int
  subchunk_2_id : Int
  subchunk_2_size : Int
  data : List Nat

/-- The bytes of the ASCII tag RIFF, compared by strncmp(buffer, above, 4). -/
def riffTag : List Nat := [82, 73, 70, 70]

/-- The bytes of the ASCII tag data, compared by strncmp(buffer, above, 4). -/
def dataTag : List Nat := [100, 97, 116, 97]

/-- Lines 152-166 of the source: after the 4-byte lookahead read, if the
buffer is not the tag data, read a 4-byte extension size, read and drop
that many bytes, and read 4 more bytes into the buffer; either way the
buffer is then decoded into subchunk_2_id.  Returns the decoded id, the
buffer contents afterwards, and the stream afterwards. -/
def readLookahead (big : Bool) (buf : List Nat) (s : ByteStream) : Int × List Nat × ByteStream :=
  if buf.take 4 = dataTag then
    (convert_to_int big buf 4, buf, s)
  else
    let r12 := sread s buf 4
    let extra_size := convert_to_int big r12.1 4
    let r13 := sreadNew r12.2 extra_size.toNat
    let r14 := sread r13.2 r12.1 4
    (convert_to_int big r14.1 4, r14.1, r14.2)

/-- Lines 168-171 of the source: read 4 bytes, decode subchunk_2_size,
allocate that many bytes and read the payload into them.  Takes the
(id, buffer, stream) triple produced by readLookahead and returns
(subchunk_2_id, subchunk_2_size, data). -/
def readTail (big : Bool) (t : Int × List Nat × ByteStream) : Int × Int × List Nat :=
  let r15 := sread t.2.2 t.2.1 4
  let sz := convert_to_int big r15.1 4
  let r16 := sreadNew r15.2 sz.toNat
  (t.1, sz, r16.1)

/-- LoadeWaveFile, lines 122-173 of the source, over the byte-source
model.  input is the file's byte content; buf0 is the indeterminate
initial content of the uninitialised 4-char stack buffer.  The Bool
component records whether the not-a-valid-WAV warning was printed
(strncmp of the first read against RIFF); the source then continues
parsing either way and always returns the record.  subchunk_1_size is
never assigned in the source, so it keeps the value 0 that
new WaveFile() gave it. -/
def LoadeWaveFile (big : Bool) (input : List Nat) (buf0 : List Nat) : WaveFile × Bool :=
  let s0 : ByteStream := ⟨input, false⟩
  let r1 := sread s0 buf0 4
  let warned := !(r1.1.take 4 == riffTag)
  let chunk_id := convert_to_int big r1.1 4
  let r2 := sread r1.2 r1.1 4
  let chunk_size := convert_to_int big r2.1 4
  let r3 := sread r2.2 r2.1 4
  let format := convert_to_int big r3.1 4
  let r4 := sread r3.2 r3.1 4
  let subchunk_1_id := convert_to_int big r4.1 4
  let r5 := sread r4.2 r4.1 2
  let audio_format := toInt16 (convert_to_int big r5.1 2)
  let r6 := sread r5.2 r5.1 2
  let num_channels := toInt16 (convert_to_int big r6.1 2)
  let r7 := sread r6.2 r6.1 4
  let sample_rate := convert_to_int big r7.1 4
  let r8 := sread r7.2 r7.1 4
  let byte_rate := convert_to_int big r8.1 4
  let r9 := sread r8.2 r8.1 2
  let block_align := toInt16 (convert_to_int big r9.1 2)
  let r10 := sread r9.2 r9.1 2
  let bits_per_sample := toInt16 (convert_to_int big r10.1 2)
  let r11 := sread r10.2 r10.1 4
  let tl := readTail big (readLookahead big r11.1 r11.2)
  ({ chunk_id := chunk_id, chunk_size := chunk_size, format := format,
     subchunk_1_id := subchunk_1_id, subchunk_1_size := 0,
     audio_format := audio_format, num_channels := num_channels,
     sample_rate := sample_rate, byte_rate := byte_rate,
     block_align := block_align, bits_per_sample := bits_per_sample,
     subchunk_2_id := tl.1, subchunk_2_size := tl.2.1,
     data := tl.2.2 }, warned)

/-- Little-endian bytes of the low 32 bits of a nonnegative number. -/
def le4 (n : Nat) : List Nat := [n % 256, n / 256 % 256, n / 65536 % 256, n / 16777216 % 256]

/-- Little-endian bytes of the low 16 bits of a nonnegative number. -/
def le2 (n : Nat) : List Nat := [n % 256, n / 256 % 256]

/-- Serialisation of a 4-byte field as LE, following the section 6
binary layout of the spec (the serialisation reference of claim C7). -/
def intTo4 (i : Int) : List Nat := le4 (i % 4294967296).toNat

/-- Serialisation of a 2-byte field as LE, following the section 6
binary layout of the spec. -/
def intTo2 (i : Int) : List Nat := le2 (i % 65536).toNat

/-- Modelled from the spec: re-serialisation of a parsed record using
the section 6 binary layout (offsets 0..35 fixed-width fields including
the 4-byte Subchunk1Size, no extension, then data tag id, size, payload).
The source has no serialiser; claim C7 names this layout as the
serialisation reference. -/
def serializeSpec (w : WaveFile) : List Nat :=
  intTo4 w.chunk_id ++ intTo4 w.chunk_size ++ intTo4 w.format ++
  intTo4 w.subchunk_1_id ++ intTo4 w.subchunk_1_size ++
  intTo2 w.audio_format ++ intTo2 w.num_channels ++
  intTo4 w.sample_rate ++ intTo4 w.byte_rate ++
  intTo2 w.block_align ++ intTo2 w.bits_per_sample ++
  intTo4 w.subchunk_2_id ++ intTo4 w.subchunk_2_size ++ w.data

/-- The code-aligned header bytes that follow the leading 4-byte tag in
the fixture streams: chunk_size 44, WAVE, fmt tag, audio_format 1,
num_channels 1, sample_rate 8000, byte_rate 8000, block_align 1,
bits_per_sample 8.  (No Subchunk1Size field: the source never reads one.) -/
def hdrAfterRiff : List Nat :=
  [44, 0, 0, 0, 87, 65, 86, 69, 102, 109, 116, 32,
   1, 0, 1, 0, 64, 31, 0, 0, 64, 31, 0, 0, 1, 0, 8, 0]

/-- A full code-aligned 32-byte header: RIFF followed by hdrAfterRiff. -/
def hdr32 : List Nat := riffTag ++ hdrAfterRiff

/-- The minimal valid mono 8-bit PCM file of the spec, laid out per the
section 6 table: RIFF, chunk_size 44, WAVE, fmt tag, Subchunk1Size 16,
audio_format 1, channels 1, sample_rate 8000, byte_rate 8000,
block_align 1, bits_per_sample 8, data tag, size 4, payload 1 2 3 4. -/
def minimalWavBytes : List Nat :=
  [82, 73, 70, 70, 44, 0, 0, 0, 87, 65, 86, 69, 102, 109, 116, 32,
   16, 0, 0, 0, 1, 0, 1, 0, 64, 31, 0, 0, 64, 31, 0, 0, 1, 0, 8, 0,
   100, 97, 116, 97, 4, 0, 0, 0, 1, 2, 3, 4]

/-- Four bytes are always delivered from a list with at least four entries. -/
theorem readBytes4 (a b c d : Nat) (l : List Nat) :
    readBytes 4 (a :: b :: c :: d :: l) = ([a, b, c, d], l, false) := rfl

/-- Two bytes are always delivered from a list with at least two entries. -/
theorem readBytes2 (a b : Nat) (l : List Nat) :
    readBytes 2 (a :: b :: l) = ([a, b], l, false) := rfl

/-- Reading exactly the length of a prefix delivers that prefix. -/
theorem readBytes_exact (l t : List Nat) : readBytes l.length (l ++ t) = (l, t, false) := by
  induction l with
  | nil => rfl
  | cons b l ih => simp [List.length_cons, readBytes, ih]

/-- Asking for more bytes than remain delivers everything and reports
exhaustion. -/
theorem readBytes_all (l : List Nat) (n : Nat) (h : l.length < n) :
    readBytes n l = (l, [], true) := by
  induction l generalizing n with
  | nil =>
    match n, h with
    | m + 1, _ => rfl
  | cons b l ih =>
    match n, h with
    | m + 1, h => simp [readBytes, ih m (by simpa using h)]

/-- Values below 2^31 pass through the int reinterpretation unchanged. -/
theorem toInt32_small (n : Nat) (h : n < 2147483648) : toInt32 n = (n : Int) := by
  unfold toInt32
  rw [Nat.mod_eq_of_lt (by omega), if_pos h]

/-- Evaluation of the little-endian-host branch on a 4-byte buffer. -/
theorem convert4_eval (big : Bool) (b0 b1 b2 b3 : Nat) :
    convert_to_int big [b0, b1, b2, b3] 4 =
      toInt32 (b0 + 256 * b1 + 65536 * b2 + 16777216 * b3) := by
  cases big
  · show toInt32 (b3 * 16777216 + b2 * 65536 + b1 * 256 + b0) = _
    exact congrArg toInt32 (by ring)
  · show toInt32 (b3 * 16777216 + b2 * 65536 + b1 * 256 + b0) = _
    exact congrArg toInt32 (by ring)

/-- Evaluation of the decoder on a 2-byte span: no sign extension, the
two high cells of the int stay zero in both host-order branches. -/
theorem convert2_eval (big : Bool) (b0 b1 : Nat) (t : List Nat) :
    convert_to_int big (b0 :: b1 :: t) 2 = toInt32 (b0 + 256 * b1) := by
  cases big
  · show toInt32 (0 * 16777216 + 0 * 65536 + b1 * 256 + b0) = _
    exact congrArg toInt32 (by ring)
  · show toInt32 (0 * 16777216 + 0 * 65536 + b1 * 256 + b0) = _
    exact congrArg toInt32 (by ring)

/-- A read on an unfailed stream delivers what readBytes delivers and
overwrites the front of the buffer. -/
theorem sread_ok (rest buf : List Nat) (n : Nat) :
    sread ⟨rest, false⟩ buf n =
      ((readBytes n rest).1 ++ buf.drop (readBytes n rest).1.length,
       ⟨(readBytes n rest).2.1, (readBytes n rest).2.2⟩) := rfl

/-- A fresh-buffer read on an unfailed stream delivers what readBytes
delivers. -/
theorem sreadNew_ok (rest : List Nat) (n : Nat) :
    sreadNew ⟨rest, false⟩ n =
      ((readBytes n rest).1, ⟨(readBytes n rest).2.1, (readBytes n rest).2.2⟩) := rfl

/-- Dropping four entries from a list with four explicit heads. -/
theorem drop4_cons (a b c d : Nat) (l : List Nat) :
    List.drop 4 (a :: b :: c :: d :: l) = l := rfl

/-- Dropping two entries from a list with two explicit heads. -/
theorem drop2_cons (a b : Nat) (l : List Nat) :
    List.drop 2 (a :: b :: l) = l := rfl

/-- Taking four entries from a list with four explicit heads. -/
theorem take4_cons (a b c d : Nat) (l : List Nat) :
    List.take 4 (a :: b :: c :: d :: l) = [a, b, c, d] := rfl

/-- A 4-byte request on an exhausted list delivers nothing and reports
exhaustion. -/
theorem readBytes4_nil : readBytes 4 [] = ([], [], true) := rfl

/-- A 2-byte request on an exhausted list delivers nothing and reports
exhaustion. -/
theorem readBytes2_nil : readBytes 2 [] = ([], [], true) := rfl

/-- A read on a failed stream is a no-op: the buffer and stream are
unchanged. -/
theorem sread_stop (rest buf : List Nat) (n : Nat) :
    sread ⟨rest, true⟩ buf n = (buf, ⟨rest, true⟩) := rfl

/-- A fresh-buffer read on a failed stream is a no-op. -/
theorem sreadNew_stop (rest : List Nat) (n : Nat) :
    sreadNew ⟨rest, true⟩ n = ([], ⟨rest, true⟩) := rfl

/-- Small nonnegative values pass through the short truncation
unchanged. -/
theorem toInt16_small (i : Int) (h0 : 0 ≤ i) (h : i < 32768) : toInt16 i = i := by
  unfold toInt16
  rw [Int.emod_eq_of_lt h0 (by omega), if_pos h]

/-- Evaluation of the subchunk-2 tail reader when the buffer holds four
bytes and the stream still delivers the size field. -/
theorem readTail_eval (big : Bool) (i : Int) (b0 b1 b2 b3 s0 s1 s2 s3 : Nat) (pl : List Nat) :
    readTail big (i, [b0, b1, b2, b3], ⟨s0 :: s1 :: s2 :: s3 :: pl, false⟩) =
      (i, convert_to_int big [s0, s1, s2, s3] 4,
       (readBytes (convert_to_int big [s0, s1, s2, s3] 4).toNat pl).1) := rfl

/-- When the lookahead buffer holds the tag data, the lookahead is
decoded directly and the stream is untouched. -/
theorem readLookahead_data (big : Bool) (s : ByteStream) :
    readLookahead big [100, 97, 116, 97] s =
      (convert_to_int big [100, 97, 116, 97] 4, [100, 97, 116, 97], s) := rfl

/-- When the lookahead buffer is not the tag data, the parser reads a
4-byte extension size, skips exactly that many bytes, and reads the next
4 bytes into the buffer, which the caller decodes into subchunk_2_id. -/
theorem readLookahead_ext (big : Bool) (t0 t1 t2 t3 e0 e1 e2 e3 d0 d1 d2 d3 : Nat)
    (ext tl2 : List Nat)
    (ht : [t0, t1, t2, t3] ≠ dataTag)
    (hn : (convert_to_int big [e0, e1, e2, e3] 4).toNat = ext.length) :
    readLookahead big [t0, t1, t2, t3]
        ⟨e0 :: e1 :: e2 :: e3 :: (ext ++ d0 :: d1 :: d2 :: d3 :: tl2), false⟩ =
      (convert_to_int big [d0, d1, d2, d3] 4, [d0, d1, d2, d3], ⟨tl2, false⟩) := by
  have ht4 : ¬(List.take 4 [t0, t1, t2, t3] = dataTag) := ht
  unfold readLookahead
  rw [if_neg ht4]
  simp only [sread_ok, sreadNew_ok, readBytes4, readBytes_exact, drop4_cons,
    List.append_nil, List.length_cons, List.length_nil, Nat.reduceAdd, hn]

/-- C10: the parser never assigns subchunk_1_size: on every input it
keeps the value 0 that new WaveFile() zero-initialised it to; and no
4-byte Subchunk1Size field is read between subchunk_1_id and
audio_format: audio_format is decoded from the two bytes at offsets
16-17, immediately after the 4-byte subchunk_1_id at offsets 12-15. -/
theorem c10_subchunk1_size_never_assigned :
    (∀ (big : Bool) (input buf0 : List Nat),
      ((LoadeWaveFile big input buf0).1).subchunk_1_size = 0) ∧
    (∀ (big : Bool)
      (a0 a1 a2 a3 a4 a5 a6 a7 a8 a9 a10 a11 a12 a13 a14 a15 b0 b1 : Nat)
      (rest : List Nat) (g0 g1 g2 g3 : Nat),
      ((LoadeWaveFile big
          (a0 :: a1 :: a2 :: a3 :: a4 :: a5 :: a6 :: a7 :: a8 :: a9 :: a10 :: a11 ::
           a12 :: a13 :: a14 :: a15 :: b0 :: b1 :: rest)
          [g0, g1, g2, g3]).1).audio_format = toInt16 (convert_to_int big [b0, b1] 2)) := by
  constructor
  · intro big input buf0
    rfl
  · intro big a0 a1 a2 a3 a4 a5 a6 a7 a8 a9 a10 a11 a12 a13 a14 a15 b0 b1 rest g0 g1 g2 g3
    cases big <;> rfl

/-- C2: for a byte span of length 2 or 4, the big-endian-host branch and
the little-endian-host branch of convert_to_int produce the same value. -/
theorem c2_decoder_endian_independent (buf : List Nat)
    (h : buf.length = 2 ∨ buf.length = 4) :
    convert_to_int true buf buf.length = convert_to_int false buf buf.length := by
  rcases h with h | h
  · obtain ⟨a, b, rfl⟩ := List.length_eq_two.mp h
    rfl
  · rcases buf with _ | ⟨a, buf⟩
    · simp at h
    rcases buf with _ | ⟨b, buf⟩
    · simp at h
    rcases buf with _ | ⟨c, buf⟩
    · simp at h
    rcases buf with _ | ⟨d, buf⟩
    · simp at h
    rcases buf with _ | ⟨e, buf⟩
    · rfl
    · simp at h

/-- Witness for C2 at the concrete 2-byte span FF FF. -/
theorem c2_decoder_endian_independent_witness :
    (([255, 255] : List Nat).length = 2 ∨ ([255, 255] : List Nat).length = 4) ∧
    convert_to_int true ([255, 255] : List Nat) ([255, 255] : List Nat).length =
      convert_to_int false ([255, 255] : List Nat) ([255, 255] : List Nat).length :=
  ⟨Or.inl rfl, c2_decoder_endian_independent [255, 255] (Or.inl rfl)⟩

/-- C3 counterexample: the decoder returns 65535 for the 2-byte span
FF FF on either host order, not the negative signed value -1. -/
theorem c3_decoder_unsigned_counterexample :
    convert_to_int false [255, 255] 2 = 65535 ∧
    convert_to_int true [255, 255] 2 = 65535 ∧
    convert_to_int false [255, 255] 2 ≠ (-1 : Int) := by
  decide

/-- C3 amended: a 4-byte span decodes to the signed 32-bit value of its
little-endian interpretation, but a 2-byte span decodes zero-extended:
the result is the unsigned 16-bit value and is never negative (sign only
appears later, when the int is truncated into a 16-bit record field). -/
theorem c3_decoder_value_amended (big : Bool) (b0 b1 b2 b3 : Nat)
    (h0 : b0 < 256) (h1 : b1 < 256) (h2 : b2 < 256) (h3 : b3 < 256) :
    convert_to_int big [b0, b1, b2, b3] 4 =
      (if b0 + 256 * b1 + 65536 * b2 + 16777216 * b3 < 2147483648
        then ((b0 + 256 * b1 + 65536 * b2 + 16777216 * b3 : Nat) : Int)
        else ((b0 + 256 * b1 + 65536 * b2 + 16777216 * b3 : Nat) : Int) - 4294967296) ∧
    convert_to_int big [b0, b1] 2 = ((b0 + 256 * b1 : Nat) : Int) ∧
    0 ≤ convert_to_int big [b0, b1] 2 := by
  have hlt : b0 + 256 * b1 + 65536 * b2 + 16777216 * b3 < 4294967296 := by omega
  have hlt2 : b0 + 256 * b1 < 2147483648 := by omega
  refine ⟨?_, ?_, ?_⟩
  · rw [convert4_eval]
    unfold toInt32
    rw [Nat.mod_eq_of_lt hlt]
  · rw [convert2_eval, toInt32_small _ hlt2]
  · rw [convert2_eval, toInt32_small _ hlt2]
    exact Int.natCast_nonneg _

/-- Witness for C3 amended at the span FF FF 00 00. -/
theorem c3_decoder_value_amended_witness :
    ((255 : Nat) < 256 ∧ (255 : Nat) < 256 ∧ (0 : Nat) < 256 ∧ (0 : Nat) < 256) ∧
    (convert_to_int false [255, 255, 0, 0] 4 =
        (if 255 + 256 * 255 + 65536 * 0 + 16777216 * 0 < 2147483648
          then ((255 + 256 * 255 + 65536 * 0 + 16777216 * 0 : Nat) : Int)
          else ((255 + 256 * 255 + 65536 * 0 + 16777216 * 0 : Nat) : Int) - 4294967296) ∧
      convert_to_int false [255, 255] 2 = ((255 + 256 * 255 : Nat) : Int) ∧
      0 ≤ convert_to_int false [255, 255] 2) :=
  ⟨⟨by decide, by decide, by decide, by decide⟩,
   c3_decoder_value_amended false 255 255 0 0 (by decide) (by decide) (by decide) (by decide)⟩

/-- C1: evaluation of the parser on the minimal valid mono 8-bit PCM
file of the spec.  Because the source never reads the 4-byte
Subchunk1Size field at offsets 16-19, every later field is read 4 bytes
early: the record comes back with audio_format 16, num_channels 0,
sample_rate 65537, subchunk_2_size 1635017060 and an empty payload,
not the claimed num_channels 1, sample_rate 8000, subchunk_2_size 4,
payload 1 2 3 4. -/
theorem c1_minimal_file_misparsed :
    LoadeWaveFile false minimalWavBytes [0, 0, 0, 0] =
      ({ chunk_id := 1179011410, chunk_size := 44, format := 1163280727,
         subchunk_1_id := 544501094, subchunk_1_size := 0,
         audio_format := 16, num_channels := 0, sample_rate := 65537,
         byte_rate := 8000, block_align := 8000, bits_per_sample := 0,
         subchunk_2_id := 1635017060, subchunk_2_size := 1635017060,
         data := [] }, false) := rfl

/-- C7: parsing the minimal valid canonical WAVE byte sequence and
re-serialising the resulting record with the section 6 layout does not
reproduce the original bytes (the parse is misaligned because
Subchunk1Size is never read, and the record's subchunk_1_size
serialises as 0). -/
theorem c7_roundtrip_fails :
    serializeSpec ((LoadeWaveFile false minimalWavBytes [0, 0, 0, 0]).1) ≠ minimalWavBytes := by
  decide

/-- C5 counterexample: on the stream cut off right after the fmt tag the
parser does not fail; it returns a record whose remaining fields are
decoded from the stale buffer bytes of the fmt tag (value 28006 for the
shorts, 544501094 for the ints). -/
theorem c5_truncated_counterexample :
    LoadeWaveFile false
        [82, 73, 70, 70, 44, 0, 0, 0, 87, 65, 86, 69, 102, 109, 116, 32] [0, 0, 0, 0] =
      ({ chunk_id := 1179011410, chunk_size := 44, format := 1163280727,
         subchunk_1_id := 544501094, subchunk_1_size := 0,
         audio_format := 28006, num_channels := 28006,
         sample_rate := 544501094, byte_rate := 544501094,
         block_align := 28006, bits_per_sample := 28006,
         subchunk_2_id := 544501094, subchunk_2_size := 544501094,
         data := [] }, false) := rfl

/-- C5 amended: the parser has no truncation detection.  For every
stream that ends right after the fmt tag (any chunk_size bytes c0-c3,
any initial buffer content g0-g3) it still returns a record: the reads
past the end are no-ops and every later field decodes the stale fmt-tag
buffer, so the record is neither an error nor zero-filled. -/
theorem c5_truncated_amended (c0 c1 c2 c3 g0 g1 g2 g3 : Nat) :
    LoadeWaveFile false
        [82, 73, 70, 70, c0, c1, c2, c3, 87, 65, 86, 69, 102, 109, 116, 32]
        [g0, g1, g2, g3] =
      ({ chunk_id := 1179011410,
         chunk_size := convert_to_int false [c0, c1, c2, c3] 4,
         format := 1163280727, subchunk_1_id := 544501094, subchunk_1_size := 0,
         audio_format := 28006, num_channels := 28006,
         sample_rate := 544501094, byte_rate := 544501094,
         block_align := 28006, bits_per_sample := 28006,
         subchunk_2_id := 544501094, subchunk_2_size := 544501094,
         data := [] }, false) := by
  simp [LoadeWaveFile, readLookahead, readTail, sread_ok, sread_stop, sreadNew_ok,
    sreadNew_stop, readBytes4, readBytes2, readBytes4_nil, readBytes2_nil,
    take4_cons, drop4_cons, drop2_cons, riffTag, dataTag,
    convert4_eval, convert2_eval, toInt32_small, toInt16_small]

/-- C8 counterexample: on the stream cut off after the WAVE marker the
parser returns a record in which chunk_id, chunk_size and format were
decoded from stream bytes but every later field was decoded from the
stale WAVE buffer bytes, i.e. a partially populated record, and no
error is reported. -/
theorem c8_partial_record_counterexample :
    LoadeWaveFile false [82, 73, 70, 70, 44, 0, 0, 0, 87, 65, 86, 69] [0, 0, 0, 0] =
      ({ chunk_id := 1179011410, chunk_size := 44, format := 1163280727,
         subchunk_1_id := 1163280727, subchunk_1_size := 0,
         audio_format := 16727, num_channels := 16727,
         sample_rate := 1163280727, byte_rate := 1163280727,
         block_align := 16727, bits_per_sample := 16727,
         subchunk_2_id := 1163280727, subchunk_2_size := 1163280727,
         data := [] }, false) := rfl

/-- C8 amended: the parser never fails.  For every stream ending after
the WAVE marker (any chunk_size bytes, any initial buffer content) it
returns a record whose fields past the point of exhaustion repeat the
decode of the stale WAVE buffer, and whose subchunk_1_size is the
never-assigned 0: records not fully populated from stream bytes are
returned instead of errors. -/
theorem c8_total_parse_amended (c0 c1 c2 c3 g0 g1 g2 g3 : Nat) :
    LoadeWaveFile false
        [82, 73, 70, 70, c0, c1, c2, c3, 87, 65, 86, 69] [g0, g1, g2, g3] =
      ({ chunk_id := 1179011410,
         chunk_size := convert_to_int false [c0, c1, c2, c3] 4,
         format := 1163280727, subchunk_1_id := 1163280727, subchunk_1_size := 0,
         audio_format := 16727, num_channels := 16727,
         sample_rate := 1163280727, byte_rate := 1163280727,
         block_align := 16727, bits_per_sample := 16727,
         subchunk_2_id := 1163280727, subchunk_2_size := 1163280727,
         data := [] }, false) := by
  simp [LoadeWaveFile, readLookahead, readTail, sread_ok, sread_stop, sreadNew_ok,
    sreadNew_stop, readBytes4, readBytes2, readBytes4_nil, readBytes2_nil,
    take4_cons, drop4_cons, drop2_cons, riffTag, dataTag,
    convert4_eval, convert2_eval, toInt32_small, toInt16_small]

/-- C4 counterexample: on a stream that begins with RIFX instead of
RIFF (and is otherwise well formed for this parser) the parse does not
fail: it returns a fully parsed record, with chunk_id decoded from the
mismatched bytes; only the warning flag distinguishes it. -/
theorem c4_riff_mismatch_counterexample :
    LoadeWaveFile false
        ([82, 73, 70, 88] ++ hdrAfterRiff ++ dataTag ++ [4, 0, 0, 0] ++ [1, 2, 3, 4])
        [0, 0, 0, 0] =
      ({ chunk_id := 1481001298, chunk_size := 44, format := 1163280727,
         subchunk_1_id := 544501094, subchunk_1_size := 0,
         audio_format := 1, num_channels := 1, sample_rate := 8000,
         byte_rate := 8000, block_align := 1, bits_per_sample := 8,
         subchunk_2_id := 1635017060, subchunk_2_size := 4,
         data := [1, 2, 3, 4] }, true) := rfl

/-- C4 amended: a leading 4-byte tag different from RIFF only sets the
printed-warning flag; the parser still decodes chunk_id from the
mismatched bytes, parses the rest of the stream normally, and returns
the complete record.  There is no InvalidFormat failure. -/
theorem c4_riff_mismatch_amended (t0 t1 t2 t3 : Nat) (ht : [t0, t1, t2, t3] ≠ riffTag) :
    LoadeWaveFile false
        ([t0, t1, t2, t3] ++ hdrAfterRiff ++ dataTag ++ [4, 0, 0, 0] ++ [1, 2, 3, 4])
        [0, 0, 0, 0] =
      ({ chunk_id := convert_to_int false [t0, t1, t2, t3] 4, chunk_size := 44,
         format := 1163280727, subchunk_1_id := 544501094, subchunk_1_size := 0,
         audio_format := 1, num_channels := 1, sample_rate := 8000,
         byte_rate := 8000, block_align := 1, bits_per_sample := 8,
         subchunk_2_id := 1635017060, subchunk_2_size := 4,
         data := [1, 2, 3, 4] }, true) := by
  have hbeq : ([t0, t1, t2, t3] == ([82, 73, 70, 70] : List Nat)) = false :=
    beq_eq_false_iff_ne.mpr (by simpa [riffTag] using ht)
  simp [LoadeWaveFile, readLookahead, readTail, sread_ok, sread_stop, sreadNew_ok,
    sreadNew_stop, readBytes4, readBytes2, readBytes4_nil, readBytes2_nil,
    take4_cons, drop4_cons, drop2_cons, riffTag, dataTag, hdrAfterRiff, hbeq,
    convert4_eval, convert2_eval, toInt32_small, toInt16_small]

/-- Witness for C4 amended at the concrete RIFX stream. -/
theorem c4_riff_mismatch_amended_witness :
    (([82, 73, 70, 88] : List Nat) ≠ riffTag) ∧
    LoadeWaveFile false
        ([82, 73, 70, 88] ++ hdrAfterRiff ++ dataTag ++ [4, 0, 0, 0] ++ [1, 2, 3, 4])
        [0, 0, 0, 0] =
      ({ chunk_id := convert_to_int false [82, 73, 70, 88] 4, chunk_size := 44,
         format := 1163280727, subchunk_1_id := 544501094, subchunk_1_size := 0,
         audio_format := 1, num_channels := 1, sample_rate := 8000,
         byte_rate := 8000, block_align := 1, bits_per_sample := 8,
         subchunk_2_id := 1635017060, subchunk_2_size := 4,
         data := [1, 2, 3, 4] }, true) :=
  ⟨by decide, c4_riff_mismatch_amended 82 73 70 88 (by decide)⟩

/-- C6 counterexample: a stream whose data chunk declares 8 payload
bytes but carries only 4 does not make the parse fail: the parser reads
short and returns a record with subchunk_2_size 8 and a 4-byte payload. -/
theorem c6_short_payload_counterexample :
    LoadeWaveFile false (hdr32 ++ dataTag ++ [8, 0, 0, 0] ++ [1, 2, 3, 4]) [0, 0, 0, 0] =
      ({ chunk_id := 1179011410, chunk_size := 44, format := 1163280727,
         subchunk_1_id := 544501094, subchunk_1_size := 0,
         audio_format := 1, num_channels := 1, sample_rate := 8000,
         byte_rate := 8000, block_align := 1, bits_per_sample := 8,
         subchunk_2_id := 1635017060, subchunk_2_size := 8,
         data := [1, 2, 3, 4] }, false) := rfl

/-- C6 amended: subchunk_2_size is trusted, not bounded: whenever the
decoded size exceeds the remaining bytes, the parser reads whatever is
left and still returns a record whose subchunk_2_size keeps the larger
declared value while the initialised payload is exactly the remaining
bytes.  No TruncatedInput failure exists. -/
theorem c6_short_payload_amended (s0 s1 s2 s3 : Nat) (pl : List Nat)
    (hlt : s0 + 256 * s1 + 65536 * s2 + 16777216 * s3 < 2147483648)
    (hshort : pl.length < s0 + 256 * s1 + 65536 * s2 + 16777216 * s3) :
    ((LoadeWaveFile false (hdr32 ++ dataTag ++ ([s0, s1, s2, s3] ++ pl)) [0, 0, 0, 0]).1).subchunk_2_size =
      ((s0 + 256 * s1 + 65536 * s2 + 16777216 * s3 : Nat) : Int) ∧
    ((LoadeWaveFile false (hdr32 ++ dataTag ++ ([s0, s1, s2, s3] ++ pl)) [0, 0, 0, 0]).1).data = pl := by
  have hread : readBytes (s0 + 256 * s1 + 65536 * s2 + 16777216 * s3) pl = (pl, [], true) :=
    readBytes_all pl _ hshort
  have htn : ((s0 : Int) + 256 * (s1 : Int) + 65536 * (s2 : Int) + 16777216 * (s3 : Int)).toNat
      = s0 + 256 * s1 + 65536 * s2 + 16777216 * s3 := by omega
  constructor <;>
    simp [LoadeWaveFile, readLookahead, readTail, sread_ok, sread_stop, sreadNew_ok,
      sreadNew_stop, readBytes4, readBytes2, readBytes4_nil, readBytes2_nil,
      take4_cons, drop4_cons, drop2_cons, riffTag, dataTag, hdr32, hdrAfterRiff,
      convert4_eval, convert2_eval, toInt32_small, toInt16_small, hlt, hread, htn,
      Int.toNat_natCast]

/-- Witness for C6 amended: declared size 8, only 4 payload bytes. -/
theorem c6_short_payload_amended_witness :
    (8 + 256 * 0 + 65536 * 0 + 16777216 * 0 < 2147483648) ∧
    (([1, 2, 3, 4] : List Nat).length < 8 + 256 * 0 + 65536 * 0 + 16777216 * 0) ∧
    (((LoadeWaveFile false (hdr32 ++ dataTag ++ (([8, 0, 0, 0] : List Nat) ++ [1, 2, 3, 4])) [0, 0, 0, 0]).1).subchunk_2_size =
        ((8 + 256 * 0 + 65536 * 0 + 16777216 * 0 : Nat) : Int) ∧
      ((LoadeWaveFile false (hdr32 ++ dataTag ++ (([8, 0, 0, 0] : List Nat) ++ [1, 2, 3, 4])) [0, 0, 0, 0]).1).data = [1, 2, 3, 4]) :=
  ⟨by decide, by decide,
   c6_short_payload_amended 8 0 0 0 [1, 2, 3, 4] (by decide) (by decide)⟩

/-- C9: when the 4-byte lookahead after bits_per_sample is not the tag
data, the parser reads a 4-byte extension length N, skips exactly N
bytes, decodes the following 4 bytes into subchunk_2_id, and goes on to
read subchunk_2_size and the payload from what follows; when the
lookahead is the tag data, the lookahead bytes themselves are decoded
into subchunk_2_id and nothing is skipped. -/
theorem c9_extension_skip (t0 t1 t2 t3 e0 e1 e2 e3 d0 d1 d2 d3 s0 s1 s2 s3 : Nat)
    (ext pl : List Nat)
    (ht : [t0, t1, t2, t3] ≠ dataTag)
    (he : ext.length = e0 + 256 * e1 + 65536 * e2 + 16777216 * e3)
    (helt : e0 + 256 * e1 + 65536 * e2 + 16777216 * e3 < 2147483648)
    (hp : pl.length = s0 + 256 * s1 + 65536 * s2 + 16777216 * s3)
    (hslt : s0 + 256 * s1 + 65536 * s2 + 16777216 * s3 < 2147483648) :
    (((LoadeWaveFile false
        (hdr32 ++ (t0 :: t1 :: t2 :: t3 :: e0 :: e1 :: e2 :: e3 ::
          (ext ++ (d0 :: d1 :: d2 :: d3 :: s0 :: s1 :: s2 :: s3 :: pl))))
        [0, 0, 0, 0]).1).subchunk_2_id = convert_to_int false [d0, d1, d2, d3] 4 ∧
      ((LoadeWaveFile false
        (hdr32 ++ (t0 :: t1 :: t2 :: t3 :: e0 :: e1 :: e2 :: e3 ::
          (ext ++ (d0 :: d1 :: d2 :: d3 :: s0 :: s1 :: s2 :: s3 :: pl))))
        [0, 0, 0, 0]).1).subchunk_2_size =
          ((s0 + 256 * s1 + 65536 * s2 + 16777216 * s3 : Nat) : Int) ∧
      ((LoadeWaveFile false
        (hdr32 ++ (t0 :: t1 :: t2 :: t3 :: e0 :: e1 :: e2 :: e3 ::
          (ext ++ (d0 :: d1 :: d2 :: d3 :: s0 :: s1 :: s2 :: s3 :: pl))))
        [0, 0, 0, 0]).1).data = pl) ∧
    (((LoadeWaveFile false (hdr32 ++ (dataTag ++ (s0 :: s1 :: s2 :: s3 :: pl)))
        [0, 0, 0, 0]).1).subchunk_2_id = 1635017060 ∧
      ((LoadeWaveFile false (hdr32 ++ (dataTag ++ (s0 :: s1 :: s2 :: s3 :: pl)))
        [0, 0, 0, 0]).1).data = pl) := by
  have hn : (convert_to_int false [e0, e1, e2, e3] 4).toNat = ext.length := by
    rw [convert4_eval, toInt32_small _ helt, Int.toNat_natCast, he]
  have hL := readLookahead_ext false t0 t1 t2 t3 e0 e1 e2 e3 d0 d1 d2 d3 ext
      (s0 :: s1 :: s2 :: s3 :: pl) ht hn
  have hread : readBytes (s0 + 256 * s1 + 65536 * s2 + 16777216 * s3) pl = (pl, [], false) := by
    have h2 := readBytes_exact pl []
    rw [List.append_nil] at h2
    rw [← hp]
    exact h2
  have htn : ((s0 : Int) + 256 * (s1 : Int) + 65536 * (s2 : Int) + 16777216 * (s3 : Int)).toNat
      = s0 + 256 * s1 + 65536 * s2 + 16777216 * s3 := by omega
  refine ⟨⟨?_, ?_, ?_⟩, ?_, ?_⟩ <;>
    simp [LoadeWaveFile, readTail, readLookahead_data, sread_ok, sread_stop,
      sreadNew_ok, sreadNew_stop, readBytes4, readBytes2, readBytes4_nil, readBytes2_nil,
      take4_cons, drop4_cons, drop2_cons, riffTag, dataTag, hdr32, hdrAfterRiff,
      hL, convert4_eval, convert2_eval, toInt32_small, toInt16_small, hslt, hread, htn,
      Int.toNat_natCast]

/-- Witness for C9: lookahead tag LIST, extension length 2 with body
00 00, then the data chunk with size 8 and an 8-byte payload. -/
theorem c9_extension_skip_witness :
    (([76, 73, 83, 84] : List Nat) ≠ dataTag) ∧
    (([0, 0] : List Nat).length = 2 + 256 * 0 + 65536 * 0 + 16777216 * 0) ∧
    (2 + 256 * 0 + 65536 * 0 + 16777216 * 0 < 2147483648) ∧
    (([9, 10, 11, 12, 13, 14, 15, 16] : List Nat).length = 8 + 256 * 0 + 65536 * 0 + 16777216 * 0) ∧
    (8 + 256 * 0 + 65536 * 0 + 16777216 * 0 < 2147483648) ∧
    ((((LoadeWaveFile false
        (hdr32 ++ (76 :: 73 :: 83 :: 84 :: 2 :: 0 :: 0 :: 0 ::
          (([0, 0] : List Nat) ++ (100 :: 97 :: 116 :: 97 :: 8 :: 0 :: 0 :: 0 :: [9, 10, 11, 12, 13, 14, 15, 16]))))
        [0, 0, 0, 0]).1).subchunk_2_id = convert_to_int false [100, 97, 116, 97] 4 ∧
      ((LoadeWaveFile false
        (hdr32 ++ (76 :: 73 :: 83 :: 84 :: 2 :: 0 :: 0 :: 0 ::
          (([0, 0] : List Nat) ++ (100 :: 97 :: 116 :: 97 :: 8 :: 0 :: 0 :: 0 :: [9, 10, 11, 12, 13, 14, 15, 16]))))
        [0, 0, 0, 0]).1).subchunk_2_size =
          ((8 + 256 * 0 + 65536 * 0 + 16777216 * 0 : Nat) : Int) ∧
      ((LoadeWaveFile false
        (hdr32 ++ (76 :: 73 :: 83 :: 84 :: 2 :: 0 :: 0 :: 0 ::
          (([0, 0] : List Nat) ++ (100 :: 97 :: 116 :: 97 :: 8 :: 0 :: 0 :: 0 :: [9, 10, 11, 12, 13, 14, 15, 16]))))
        [0, 0, 0, 0]).1).data = [9, 10, 11, 12, 13, 14, 15, 16]) ∧
    (((LoadeWaveFile false (hdr32 ++ (dataTag ++ (8 :: 0 :: 0 :: 0 :: [9, 10, 11, 12, 13, 14, 15, 16])))
        [0, 0, 0, 0]).1).subchunk_2_id = 1635017060 ∧
      ((LoadeWaveFile false (hdr32 ++ (dataTag ++ (8 :: 0 :: 0 :: 0 :: [9, 10, 11, 12, 13, 14, 15, 16])))
        [0, 0, 0, 0]).1).data = [9, 10, 11, 12, 13, 14, 15, 16])) :=
  ⟨by decide, by decide, by decide, by decide, by decide,
   c9_extension_skip 76 73 83 84 2 0 0 0 100 97 116 97 8 0 0 0
     [0, 0] [9, 10, 11, 12, 13, 14, 15, 16]
     (by decide) (by decide) (by decide) (by decide) (by decide)⟩
